import Mathlib

set_option linter.unusedVariables false

/-!
Verification development for the appmarkable supervision program.

Shallow embedding of the supervision loop in src/main.rs and the touch
hit-testing helper in src/canvas.rs.  Durations are modelled in
milliseconds as naturals.  The outcomes of operating-system calls made
during one cycle (signal sends, bounded and unbounded process waits) are
inputs of the model, so the pure control flow of the source is what the
definitions compute.  Rendering (the Canvas draw calls) carries no
decision logic and is not modelled.
-/

/-- Display width of the reMarkable screen (libremarkable `DISPLAYWIDTH`). -/
def DISPLAYWIDTH : Nat := 1404

/-- Display height of the reMarkable screen (libremarkable `DISPLAYHEIGHT`). -/
def DISPLAYHEIGHT : Nat := 1872

/-- `CORNER_SIZE` (src/main.rs line 30). -/
def CORNER_SIZE : Nat := 100

/-- Screen rectangle, as in libremarkable `mxcfb_rect` (all fields u32). -/
structure mxcfb_rect where
  top : Nat
  left : Nat
  width : Nat
  height : Nat
  deriving DecidableEq, Repr

/-- `CORNER_BOTTOM_LEFT` (src/main.rs line 31). -/
def CORNER_BOTTOM_LEFT : mxcfb_rect :=
  { top := DISPLAYHEIGHT - CORNER_SIZE, left := 0,
    width := CORNER_SIZE, height := CORNER_SIZE }

/-- `CORNER_BOTTOM_RIGHT` (src/main.rs line 32). -/
def CORNER_BOTTOM_RIGHT : mxcfb_rect :=
  { top := DISPLAYHEIGHT - CORNER_SIZE, left := DISPLAYWIDTH - CORNER_SIZE,
    width := CORNER_SIZE, height := CORNER_SIZE }

/-- `Canvas::is_hitting` (src/canvas.rs lines 186-189): half-open box test.
Positions are u16 widened to u32 in the source; both embed into `Nat`
without loss. -/
def is_hitting (posX posY : Nat) (hitbox : mxcfb_rect) : Bool :=
  decide (hitbox.left ≤ posX) && decide (posX < hitbox.left + hitbox.width) &&
  decide (hitbox.top ≤ posY) && decide (posY < hitbox.top + hitbox.height)

/-- One multitouch finger slot (libremarkable `Finger`): last known position
and whether it is currently pressed. -/
structure Finger where
  posX : Nat
  posY : Nat
  pressed : Bool
  deriving DecidableEq, Repr

/-- The quit-gesture expression of the main loop (src/main.rs lines 145-152).
`was_press` records whether a `MultitouchEvent::Press` was drained from the
input channel during this cycle (lines 129-136); `fingers` is the current
finger map of the multitouch input state (the map values, in some order). -/
def trigger_quit (was_press : Bool) (fingers : List Finger) : Bool :=
  if was_press && ((fingers.filter fun f => f.pressed).length == 2) then
    let hitting_bottom_left :=
      (fingers.filter fun f => f.pressed).any fun f =>
        is_hitting f.posX f.posY CORNER_BOTTOM_LEFT
    let hitting_bottom_right :=
      (fingers.filter fun f => f.pressed).any fun f =>
        is_hitting f.posX f.posY CORNER_BOTTOM_RIGHT
    hitting_bottom_left && hitting_bottom_right
  else
    false

/-- The pressed-state part of the quit gesture: exactly two pressed fingers
and some pressed finger in each bottom corner.  A function of the current
finger state alone, used to factor `trigger_quit`. -/
def gesture_condition (fingers : List Finger) : Bool :=
  ((fingers.filter fun f => f.pressed).length == 2) &&
  ((fingers.filter fun f => f.pressed).any fun f =>
    is_hitting f.posX f.posY CORNER_BOTTOM_LEFT) &&
  ((fingers.filter fun f => f.pressed).any fun f =>
    is_hitting f.posX f.posY CORNER_BOTTOM_RIGHT)

/-- Rust `std::process::ExitStatus`: `code()` is `none` when the status
carries no exit code (for example the child was ended by a signal). -/
structure ExitStatus where
  code : Option Int
  deriving DecidableEq, Repr

/-- Outcome of `Child::wait_timeout_ms`: the call itself can fail, report
that the process is still running (`timeout`, the `None` case), or report
the exit status of the now dead process. -/
inductive WaitOutcome where
  | ioError (msg : String)
  | timeout
  | exited (code : Option Int)
  deriving DecidableEq, Repr

/-- `wait_termination` (src/main.rs lines 280-287).  The first argument is
the outcome of the underlying `wait_timeout_ms` call with the given
timeout. -/
def wait_termination (w : WaitOutcome) (timeout_ms : Nat) (require_actual_code : Bool) :
    Except String ExitStatus :=
  match w with
  | WaitOutcome.ioError msg => Except.error msg
  | WaitOutcome.timeout =>
    Except.error "Got not exit status. Program is likely still running."
  | WaitOutcome.exited code =>
    if require_actual_code && code.isNone then
      Except.error "Got ExitStatus bot no code."
    else
      Except.ok { code := code }

deriving instance DecidableEq for Except

/-- Outcomes of the operating-system calls available to one `kill_process`
run: the SIGINT send, the 3000 ms graceful wait, the SIGKILL send and the
final untimed `child.wait()`. -/
structure KillEnv where
  sigint_send : Except String Unit
  graceful_wait : WaitOutcome
  sigkill_send : Except String Unit
  final_wait : Except String ExitStatus
  deriving DecidableEq, Repr

/-- The externally visible actions of a `kill_process` run, in order. -/
inductive KillAction where
  | sendSigint
  | waitGraceful
  | sendSigkill
  | waitFinal
  deriving DecidableEq, Repr

/-- `kill_process` (src/main.rs lines 254-278), paired with the trace of
the actions it performed.  A failed SIGINT send propagates immediately via
the question-mark operator (line 257).  A failed `child.kill()`
(`sigkill_send`, line 271) is only logged: the result never reads it, and
`child.wait()` (line 274) runs regardless. -/
def kill_process (env : KillEnv) : Except String Unit × List KillAction :=
  match env.sigint_send with
  | Except.error e => (Except.error e, [KillAction.sendSigint])
  | Except.ok _ =>
    match wait_termination env.graceful_wait 3000 false with
    | Except.ok _ =>
      (Except.ok (), [KillAction.sendSigint, KillAction.waitGraceful])
    | Except.error _ =>
      match env.final_wait with
      | Except.error e =>
        (Except.error e,
          [KillAction.sendSigint, KillAction.waitGraceful, KillAction.sendSigkill,
            KillAction.waitFinal])
      | Except.ok _ =>
        (Except.ok (),
          [KillAction.sendSigint, KillAction.waitGraceful, KillAction.sendSigkill,
            KillAction.waitFinal])

/-- The two signal flags (src/main.rs lines 73-76): set to true by the
signal_hook handler, only ever read (never stored to) by the loop. -/
structure LoopState where
  sigint : Bool
  sigterm : Bool
  deriving DecidableEq, Repr

/-- Per-cycle environment: which OS signals were delivered since the
previous cycle, the drained press events and current finger map, and the
outcomes of the process operations this cycle may perform. -/
structure CycleEvent where
  sigint_signal : Bool
  sigterm_signal : Bool
  was_press : Bool
  fingers : List Finger
  killEnv : KillEnv
  selfWait : WaitOutcome
  deriving DecidableEq, Repr

/-- Effect of the signal handler before the cycle reads the flags: the
handler only ever stores `true` (signal_hook::flag::register). -/
def handler_update (s : LoopState) (e : CycleEvent) : LoopState :=
  { sigint := s.sigint || e.sigint_signal, sigterm := s.sigterm || e.sigterm_signal }

/-- How one loop iteration ends: the program exits after a successful kill
(src/main.rs line 180), exits after detecting self-termination (line 189),
or keeps looping (`killFailed` is true on the `continue` path of line 172). -/
inductive CycleResult where
  | exitKilled
  | exitSelf (status : ExitStatus)
  | continueRunning (killFailed : Bool)
  deriving DecidableEq, Repr

/-- Observable outcome of one loop iteration. -/
structure CycleOutcome where
  state : LoopState
  terminate_invoked : Bool
  result : CycleResult
  slept_ms : Nat
  deriving DecidableEq, Repr

/-- One iteration of the main loop (src/main.rs lines 125-197).  The quit
check (lines 157-181) runs first; on kill failure the `continue` at line
172 skips both the self-exit check and the pacing sleep.  The self-exit
check (lines 184-190) runs only when no quit was requested, and the pacing
sleep (lines 193-196) only when neither branch fired.  `exit(0)` is called
on both exit paths (lines 180 and 189).  `elapsed_ms` is the wall-clock
time the work of the cycle took. -/
def cycle_step (s : LoopState) (e : CycleEvent) (elapsed_ms : Nat) : CycleOutcome :=
  let s2 := handler_update s e
  if trigger_quit e.was_press e.fingers || s2.sigint || s2.sigterm then
    match (kill_process e.killEnv).1 with
    | Except.error _ =>
      { state := s2, terminate_invoked := true,
        result := CycleResult.continueRunning true, slept_ms := 0 }
    | Except.ok _ =>
      { state := s2, terminate_invoked := true,
        result := CycleResult.exitKilled, slept_ms := 0 }
  else
    match wait_termination e.selfWait 50 true with
    | Except.ok st =>
      { state := s2, terminate_invoked := false,
        result := CycleResult.exitSelf st, slept_ms := 0 }
    | Except.error _ =>
      { state := s2, terminate_invoked := false,
        result := CycleResult.continueRunning false,
        slept_ms := if elapsed_ms < 150 then 150 - elapsed_ms else 0 }

/-- The whole-program exit code a cycle result produces: `exit(0)` on both
exit paths, `none` while the loop keeps running. -/
def program_exit_code : CycleResult → Option Nat
  | CycleResult.exitKilled => some 0
  | CycleResult.exitSelf _ => some 0
  | CycleResult.continueRunning _ => none

/-- Run the loop over a list of per-cycle environments (event and elapsed
work time); stops after the first exiting cycle. -/
def run : LoopState → List (CycleEvent × Nat) → List CycleOutcome
  | _, [] => []
  | s, (e, el) :: rest =>
    let o := cycle_step s e el
    match o.result with
    | CycleResult.continueRunning _ => o :: run o.state rest
    | _ => [o]

/-- Concrete finger pairs and cycle environments used by the concrete
counterexamples and witnesses below. -/
def cornerFingers : List Finger :=
  [{ posX := 50, posY := 1800, pressed := true },
   { posX := 1350, posY := 1800, pressed := true }]

def heldFingers : List Finger :=
  [{ posX := 10, posY := 1800, pressed := true },
   { posX := 1399, posY := 1860, pressed := true }]

def sameCornerFingers : List Finger :=
  [{ posX := 10, posY := 1800, pressed := true },
   { posX := 20, posY := 1805, pressed := true }]

/-- Environment of a kill attempt that succeeds within the grace window. -/
def okKillEnv : KillEnv :=
  { sigint_send := Except.ok (), graceful_wait := WaitOutcome.exited (some 0),
    sigkill_send := Except.ok (), final_wait := Except.ok { code := some 0 } }

/-- Environment where even the final untimed wait fails. -/
def failKillEnv : KillEnv :=
  { sigint_send := Except.ok (), graceful_wait := WaitOutcome.timeout,
    sigkill_send := Except.ok (), final_wait := Except.error "wait failed" }

/-- Environment where the graceful SIGINT cannot be sent at all. -/
def sendFailEnv : KillEnv :=
  { sigint_send := Except.error "no such process", graceful_wait := WaitOutcome.timeout,
    sigkill_send := Except.ok (), final_wait := Except.ok { code := some 0 } }

/-- Environment of the full escalation: graceful wait times out, the
SIGKILL send itself fails, the final wait succeeds. -/
def escalationEnv : KillEnv :=
  { sigint_send := Except.ok (), graceful_wait := WaitOutcome.timeout,
    sigkill_send := Except.error "kill failed", final_wait := Except.ok { code := some 9 } }

def quitAndExitedEvent : CycleEvent :=
  { sigint_signal := false, sigterm_signal := false, was_press := true,
    fingers := cornerFingers, killEnv := okKillEnv, selfWait := WaitOutcome.exited (some 0) }

def selfExitedEvent : CycleEvent :=
  { sigint_signal := false, sigterm_signal := false, was_press := false, fingers := [],
    killEnv := okKillEnv, selfWait := WaitOutcome.exited (some 0) }

def selfExitCode3Event : CycleEvent :=
  { sigint_signal := false, sigterm_signal := false, was_press := false, fingers := [],
    killEnv := okKillEnv, selfWait := WaitOutcome.exited (some 3) }

def signalKilledChildEvent : CycleEvent :=
  { sigint_signal := false, sigterm_signal := false, was_press := false, fingers := [],
    killEnv := okKillEnv, selfWait := WaitOutcome.exited none }

def gestureKillFailEvent : CycleEvent :=
  { sigint_signal := false, sigterm_signal := false, was_press := true,
    fingers := cornerFingers, killEnv := failKillEnv, selfWait := WaitOutcome.timeout }

def idleEvent : CycleEvent :=
  { sigint_signal := false, sigterm_signal := false, was_press := false, fingers := [],
    killEnv := failKillEnv, selfWait := WaitOutcome.timeout }

def stickyEvent : CycleEvent :=
  { sigint_signal := false, sigterm_signal := false, was_press := false, fingers := [],
    killEnv := failKillEnv, selfWait := WaitOutcome.timeout }

/-! ## Helper lemmas -/

/-- `trigger_quit` factors as the press-event gate and the pressed-state
condition. -/
theorem trigger_quit_factor (wp : Bool) (fs : List Finger) :
    trigger_quit wp fs = (wp && gesture_condition fs) := by
  unfold trigger_quit gesture_condition
  cases wp <;>
    cases h2 : ((fs.filter fun f => f.pressed).length == 2) <;>
      simp [h2, Bool.and_assoc]

/-- Membership form of the per-corner `any` test. -/
theorem any_pressed_hitting_iff (fs : List Finger) (box : mxcfb_rect) :
    ((fs.filter fun f => f.pressed).any fun f => is_hitting f.posX f.posY box) = true ↔
      ∃ f ∈ fs, f.pressed = true ∧ box.left ≤ f.posX ∧ f.posX < box.left + box.width ∧
        box.top ≤ f.posY ∧ f.posY < box.top + box.height := by
  simp [List.any_eq_true, List.mem_filter, is_hitting, and_assoc]

/-- The two corner boxes are disjoint. -/
theorem corners_disjoint (x y : Nat) :
    is_hitting x y CORNER_BOTTOM_LEFT = true → is_hitting x y CORNER_BOTTOM_RIGHT = false := by
  simp [is_hitting, CORNER_BOTTOM_LEFT, CORNER_BOTTOM_RIGHT, DISPLAYWIDTH, DISPLAYHEIGHT,
    CORNER_SIZE]
  omega

/-- If no pressed finger hits `box`, the corresponding `any` test is false. -/
theorem any_pressed_hitting_false (fs : List Finger) (box : mxcfb_rect)
    (h : ∀ f ∈ fs, f.pressed = true → is_hitting f.posX f.posY box = false) :
    ((fs.filter fun f => f.pressed).any fun f => is_hitting f.posX f.posY box) = false := by
  cases hany : ((fs.filter fun f => f.pressed).any fun f => is_hitting f.posX f.posY box) with
  | false => rfl
  | true =>
    exfalso
    rw [List.any_eq_true] at hany
    obtain ⟨f, hf, hhit⟩ := hany
    rw [List.mem_filter] at hf
    have := h f hf.1 hf.2
    rw [this] at hhit
    exact Bool.false_ne_true hhit

/-! ## Claim C2 -/

/-- Claim C2 (corrected): the touch quit condition as written, with
`was_press = false` and two pressed fingers one in each corner, evaluates
false although the claimed right-hand side holds, so the claimed
equivalence over pressed state alone fails. -/
theorem trigger_quit_pressed_only_cex :
    trigger_quit false cornerFingers = false ∧
    (cornerFingers.filter fun f => f.pressed).length = 2 ∧
    ((cornerFingers.filter fun f => f.pressed).any fun f =>
      is_hitting f.posX f.posY CORNER_BOTTOM_LEFT) = true ∧
    ((cornerFingers.filter fun f => f.pressed).any fun f =>
      is_hitting f.posX f.posY CORNER_BOTTOM_RIGHT) = true := by decide

/-- Claim C2 (amended): the touch quit condition evaluates true iff a press
event was drained this cycle AND exactly two points are pressed AND some
pressed point lies in the bottom-left half-open corner box AND some pressed
point lies in the bottom-right one; in particular it is false whenever no
pressed point is in one of the corners, and false when all pressed points
are inside the same corner. -/
theorem trigger_quit_characterization (wp : Bool) (fs : List Finger) :
    (trigger_quit wp fs = true ↔
      wp = true ∧ (fs.filter fun f => f.pressed).length = 2 ∧
      (∃ f ∈ fs, f.pressed = true ∧
        CORNER_BOTTOM_LEFT.left ≤ f.posX ∧
        f.posX < CORNER_BOTTOM_LEFT.left + CORNER_BOTTOM_LEFT.width ∧
        CORNER_BOTTOM_LEFT.top ≤ f.posY ∧
        f.posY < CORNER_BOTTOM_LEFT.top + CORNER_BOTTOM_LEFT.height) ∧
      (∃ f ∈ fs, f.pressed = true ∧
        CORNER_BOTTOM_RIGHT.left ≤ f.posX ∧
        f.posX < CORNER_BOTTOM_RIGHT.left + CORNER_BOTTOM_RIGHT.width ∧
        CORNER_BOTTOM_RIGHT.top ≤ f.posY ∧
        f.posY < CORNER_BOTTOM_RIGHT.top + CORNER_BOTTOM_RIGHT.height)) ∧
    ((∀ f ∈ fs, f.pressed = true → is_hitting f.posX f.posY CORNER_BOTTOM_RIGHT = false) →
      trigger_quit wp fs = false) ∧
    ((∀ f ∈ fs, f.pressed = true → is_hitting f.posX f.posY CORNER_BOTTOM_LEFT = false) →
      trigger_quit wp fs = false) ∧
    ((∀ f ∈ fs, f.pressed = true → is_hitting f.posX f.posY CORNER_BOTTOM_LEFT = true) →
      trigger_quit wp fs = false) ∧
    ((∀ f ∈ fs, f.pressed = true → is_hitting f.posX f.posY CORNER_BOTTOM_RIGHT = true) →
      trigger_quit wp fs = false) := by
  have hfac := trigger_quit_factor wp fs
  have hnoBR : (∀ f ∈ fs, f.pressed = true → is_hitting f.posX f.posY CORNER_BOTTOM_RIGHT = false) →
      trigger_quit wp fs = false := by
    intro h
    rw [hfac]
    unfold gesture_condition
    rw [any_pressed_hitting_false fs CORNER_BOTTOM_RIGHT h]
    simp
  have hnoBL : (∀ f ∈ fs, f.pressed = true → is_hitting f.posX f.posY CORNER_BOTTOM_LEFT = false) →
      trigger_quit wp fs = false := by
    intro h
    rw [hfac]
    unfold gesture_condition
    rw [any_pressed_hitting_false fs CORNER_BOTTOM_LEFT h]
    simp
  refine ⟨?_, hnoBR, hnoBL, ?_, ?_⟩
  · rw [hfac]
    unfold gesture_condition
    rw [Bool.and_eq_true, Bool.and_eq_true, Bool.and_eq_true]
    rw [any_pressed_hitting_iff fs CORNER_BOTTOM_LEFT,
      any_pressed_hitting_iff fs CORNER_BOTTOM_RIGHT]
    simp [and_assoc]
  · intro h
    refine hnoBR fun f hf hp => corners_disjoint f.posX f.posY (h f hf hp)
  · intro h
    refine hnoBL fun f hf hp => ?_
    have hbr := h f hf hp
    cases hbl : is_hitting f.posX f.posY CORNER_BOTTOM_LEFT with
    | false => rfl
    | true => rw [corners_disjoint f.posX f.posY hbl] at hbr; exact absurd hbr (by simp)

/-- Witness for C2: two pressed fingers both inside the bottom-left corner,
with a fresh press event, still evaluate false. -/
theorem trigger_quit_characterization_w :
    trigger_quit true sameCornerFingers = false := by
  have h := trigger_quit_characterization true sameCornerFingers
  exact h.2.2.2.1 (by decide)

/-! ## Claim C5 -/

/-- Claim C5 (corrected): two fingers held pressed one in each corner, but
no press event drained this cycle (`was_press = false`), evaluate false,
refuting the purely level-triggered reading. -/
theorem level_trigger_cex :
    (heldFingers.filter fun f => f.pressed).length = 2 ∧
    ((heldFingers.filter fun f => f.pressed).any fun f =>
      is_hitting f.posX f.posY CORNER_BOTTOM_LEFT) = true ∧
    ((heldFingers.filter fun f => f.pressed).any fun f =>
      is_hitting f.posX f.posY CORNER_BOTTOM_RIGHT) = true ∧
    trigger_quit false heldFingers = false := by decide

/-- Claim C5 (amended): the evaluation is computed fresh each cycle from the
current pressed state, but gated on a press event having been drained during
the cycle: `trigger_quit` equals `was_press` AND the pressed-state
condition, so with no fresh press event it is false regardless of the held
fingers. -/
theorem trigger_quit_press_gated :
    (∀ (wp : Bool) (fs : List Finger), trigger_quit wp fs = (wp && gesture_condition fs)) ∧
    (∀ fs : List Finger, trigger_quit false fs = false) := by
  refine ⟨trigger_quit_factor, fun fs => ?_⟩
  rw [trigger_quit_factor]
  rfl

/-- The quit condition read by the cycle, after the handler has updated the
flags. -/
def quit_condition (s : LoopState) (e : CycleEvent) : Bool :=
  trigger_quit e.was_press e.fingers || (handler_update s e).sigint ||
    (handler_update s e).sigterm

/-- Branch lemma: quit requested and the kill attempt fails. -/
theorem cycle_step_kill_error (s : LoopState) (e : CycleEvent) (el : Nat) (msg : String)
    (hcond : quit_condition s e = true)
    (hkill : (kill_process e.killEnv).1 = Except.error msg) :
    cycle_step s e el =
      { state := handler_update s e, terminate_invoked := true,
        result := CycleResult.continueRunning true, slept_ms := 0 } := by
  rw [quit_condition] at hcond
  simp [cycle_step, hcond, hkill]

/-- Branch lemma: quit requested and the kill attempt succeeds. -/
theorem cycle_step_kill_ok (s : LoopState) (e : CycleEvent) (el : Nat)
    (hcond : quit_condition s e = true)
    (hkill : (kill_process e.killEnv).1 = Except.ok ()) :
    cycle_step s e el =
      { state := handler_update s e, terminate_invoked := true,
        result := CycleResult.exitKilled, slept_ms := 0 } := by
  rw [quit_condition] at hcond
  simp [cycle_step, hcond, hkill]

/-- Branch lemma: no quit requested and the self-exit poll reports an exit. -/
theorem cycle_step_self_exit (s : LoopState) (e : CycleEvent) (el : Nat) (st : ExitStatus)
    (hcond : quit_condition s e = false)
    (hexit : wait_termination e.selfWait 50 true = Except.ok st) :
    cycle_step s e el =
      { state := handler_update s e, terminate_invoked := false,
        result := CycleResult.exitSelf st, slept_ms := 0 } := by
  rw [quit_condition] at hcond
  simp [cycle_step, hcond, hexit]

/-- Branch lemma: no quit requested and the poll does not report an exit. -/
theorem cycle_step_keep_running (s : LoopState) (e : CycleEvent) (el : Nat) (msg : String)
    (hcond : quit_condition s e = false)
    (hwait : wait_termination e.selfWait 50 true = Except.error msg) :
    cycle_step s e el =
      { state := handler_update s e, terminate_invoked := false,
        result := CycleResult.continueRunning false,
        slept_ms := if el < 150 then 150 - el else 0 } := by
  rw [quit_condition] at hcond
  simp [cycle_step, hcond, hwait]

/-! ## Claim C1 -/

/-- Claim C1 (corrected): when the graceful SIGINT send fails,
`kill_process` returns an error instead of resolving, and the forceful-kill
path is never entered in that call. -/
theorem kill_process_graceful_send_failure_cex :
    (kill_process sendFailEnv).1 = Except.error "no such process" ∧
    (kill_process sendFailEnv).1 ≠ Except.ok () ∧
    KillAction.sendSigkill ∉ (kill_process sendFailEnv).2 ∧
    KillAction.waitFinal ∉ (kill_process sendFailEnv).2 := by decide

/-- Claim C1 (amended): if the graceful SIGINT send fails, `kill_process`
returns that error immediately, performing only the send; the loop then
logs the failure, shows a failure status and keeps running (no exit), so
the program neither hangs nor aborts, and the kill is re-attempted on a
later cycle only through the loop re-entering the quit branch. -/
theorem kill_process_graceful_send_failure (env : KillEnv) (msg : String)
    (h : env.sigint_send = Except.error msg) :
    (kill_process env).1 = Except.error msg ∧
    (kill_process env).2 = [KillAction.sendSigint] ∧
    KillAction.sendSigkill ∉ (kill_process env).2 ∧
    (∀ (s : LoopState) (e : CycleEvent) (el : Nat),
      e.killEnv = env → quit_condition s e = true →
      (cycle_step s e el).result = CycleResult.continueRunning true ∧
      program_exit_code (cycle_step s e el).result = none) := by
  have hk : kill_process env = (Except.error msg, [KillAction.sendSigint]) := by
    unfold kill_process
    rw [h]
  refine ⟨by rw [hk], by rw [hk], by rw [hk]; simp, ?_⟩
  intro s e el he hcond
  have hkill : (kill_process e.killEnv).1 = Except.error msg := by rw [he, hk]
  rw [cycle_step_kill_error s e el msg hcond hkill]
  exact ⟨rfl, rfl⟩

/-- Witness for C1 at the concrete failing environment. -/
theorem kill_process_graceful_send_failure_w :
    (kill_process sendFailEnv).1 = Except.error "no such process" ∧
    KillAction.sendSigkill ∉ (kill_process sendFailEnv).2 := by
  have h := kill_process_graceful_send_failure sendFailEnv "no such process" rfl
  exact ⟨h.1, h.2.2.1⟩

/-! ## Claim C8 -/

/-- Claim C8 (confirmed): in the escalation path (graceful signal sent,
graceful wait failed) the forceful kill is sent and the final wait is
always attempted — whatever the outcome of the forceful send, which is only
logged — and the call fails exactly when the final wait fails; a failed
call leaves the loop running with a failure status instead of aborting, and
the kill is re-attempted whenever the quit condition holds on a cycle. -/
theorem kill_process_escalation (env : KillEnv)
    (hsend : env.sigint_send = Except.ok ())
    (hwait : ∃ m, wait_termination env.graceful_wait 3000 false = Except.error m) :
    KillAction.sendSigkill ∈ (kill_process env).2 ∧
    KillAction.waitFinal ∈ (kill_process env).2 ∧
    ((kill_process env).1 = Except.ok () ↔ ∃ st, env.final_wait = Except.ok st) ∧
    (∀ msg, env.final_wait = Except.error msg → (kill_process env).1 = Except.error msg) ∧
    (∀ (s : LoopState) (e : CycleEvent) (el : Nat) (msg : String),
      e.killEnv = env → env.final_wait = Except.error msg →
      quit_condition s e = true →
      (cycle_step s e el).result = CycleResult.continueRunning true ∧
      (cycle_step s e el).terminate_invoked = true ∧
      program_exit_code (cycle_step s e el).result = none) := by
  obtain ⟨m, hm⟩ := hwait
  cases hfin : env.final_wait with
  | error fmsg =>
    have hk : kill_process env = (Except.error fmsg,
        [KillAction.sendSigint, KillAction.waitGraceful, KillAction.sendSigkill,
          KillAction.waitFinal]) := by
      unfold kill_process
      rw [hsend, hm, hfin]
    refine ⟨by rw [hk]; simp, by rw [hk]; simp, ?_, ?_, ?_⟩
    · rw [hk]
      simp
    · intro msg hmsg
      injection hmsg with heq
      rw [hk, heq]
    · intro s e el msg he hmsg hcond
      have hkill : (kill_process e.killEnv).1 = Except.error fmsg := by rw [he, hk]
      rw [cycle_step_kill_error s e el fmsg hcond hkill]
      exact ⟨rfl, rfl, rfl⟩
  | ok st =>
    have hk : kill_process env = (Except.ok (),
        [KillAction.sendSigint, KillAction.waitGraceful, KillAction.sendSigkill,
          KillAction.waitFinal]) := by
      unfold kill_process
      rw [hsend, hm, hfin]
    refine ⟨by rw [hk]; simp, by rw [hk]; simp, ?_, ?_, ?_⟩
    · rw [hk]
      exact ⟨fun _ => ⟨st, rfl⟩, fun _ => rfl⟩
    · intro msg hmsg
      cases hmsg
    · intro s e el msg he hmsg hcond
      cases hmsg

/-- Witness for C8: graceful wait times out and the SIGKILL send itself
fails; the final wait is still reached and the call succeeds. -/
theorem kill_process_escalation_w :
    KillAction.sendSigkill ∈ (kill_process escalationEnv).2 ∧
    KillAction.waitFinal ∈ (kill_process escalationEnv).2 ∧
    (kill_process escalationEnv).1 = Except.ok () := by
  have h := kill_process_escalation escalationEnv rfl
    ⟨"Got not exit status. Program is likely still running.", rfl⟩
  exact ⟨h.1, h.2.1, h.2.2.1.mpr ⟨{ code := some 9 }, rfl⟩⟩

/-! ## Claim C3 -/

/-- Claim C3 (corrected): on a cycle where the child has already exited
(here with code 0) but the quit gesture holds, the loop invokes
`terminate()` and exits through the kill path, not the self-exit path — the
quit check runs first, refuting the claimed ordering. -/
theorem quit_checked_before_self_exit_cex :
    (cycle_step { sigint := false, sigterm := false } quitAndExitedEvent 0).terminate_invoked
      = true ∧
    (cycle_step { sigint := false, sigterm := false } quitAndExitedEvent 0).result =
      CycleResult.exitKilled := by decide

/-- Claim C3 (amended): the quit-gesture/signal condition is evaluated
before the self-exit poll; on every cycle where that condition does not
hold and the per-cycle poll reports an exit, the loop reports self-exit and
`terminate()` is not invoked.  When the condition holds on such a cycle,
`terminate()` is invoked even though the child has already exited. -/
theorem self_exit_when_no_quit (s : LoopState) (e : CycleEvent) (el : Nat) (st : ExitStatus)
    (hcond : quit_condition s e = false)
    (hexit : wait_termination e.selfWait 50 true = Except.ok st) :
    (cycle_step s e el).result = CycleResult.exitSelf st ∧
    (cycle_step s e el).terminate_invoked = false := by
  rw [cycle_step_self_exit s e el st hcond hexit]
  exact ⟨rfl, rfl⟩

/-- Witness for C3 at a concrete idle cycle with an exited child. -/
theorem self_exit_when_no_quit_w :
    (cycle_step { sigint := false, sigterm := false } selfExitedEvent 0).result =
      CycleResult.exitSelf { code := some 0 } ∧
    (cycle_step { sigint := false, sigterm := false } selfExitedEvent 0).terminate_invoked
      = false :=
  self_exit_when_no_quit { sigint := false, sigterm := false } selfExitedEvent 0
    { code := some 0 } (by decide) (by decide)

/-! ## Claim C4 -/

/-- Claim C4 (corrected): after a gesture-triggered kill fails on cycle one,
cycle two — with the gesture gone and no signal flags — does not re-attempt
`terminate()`; the loop is back to plain polling, refuting the claimed
one-shot Terminating state. -/
theorem terminate_retry_requires_condition_cex :
    (run { sigint := false, sigterm := false }
        [(gestureKillFailEvent, 0), (idleEvent, 0)]).map
      (fun o => (o.terminate_invoked, o.result)) =
    [(true, CycleResult.continueRunning true), (false, CycleResult.continueRunning false)] := by
  decide

/-- Claim C4 (amended): the loop keeps no Terminating state: `terminate()`
is invoked on a cycle exactly when the quit condition (the gesture
re-evaluated fresh that cycle, or a signal flag) holds on that cycle, so
after a failed attempt it is re-attempted on the next cycle only if that
condition evaluates true again. -/
theorem terminate_invoked_iff_condition (s : LoopState) (e : CycleEvent) (el : Nat) :
    (cycle_step s e el).terminate_invoked = quit_condition s e := by
  cases hcond : quit_condition s e with
  | true =>
    cases hkill : (kill_process e.killEnv).1 with
    | error msg => rw [cycle_step_kill_error s e el msg hcond hkill]
    | ok u =>
      cases u
      rw [cycle_step_kill_ok s e el hcond hkill]
  | false =>
    cases hwait : wait_termination e.selfWait 50 true with
    | error msg => rw [cycle_step_keep_running s e el msg hcond hwait]
    | ok st => rw [cycle_step_self_exit s e el st hcond hwait]

/-! ## Claim C6 -/

/-- Claim C6 (corrected): the child exits by itself with code 3, the loop
reports self-exit, yet the program exits with code 0, not with the child
status. -/
theorem self_exit_code_relay_cex :
    (cycle_step { sigint := false, sigterm := false } selfExitCode3Event 0).result =
      CycleResult.exitSelf { code := some 3 } ∧
    program_exit_code
      (cycle_step { sigint := false, sigterm := false } selfExitCode3Event 0).result =
      some 0 ∧
    program_exit_code
      (cycle_step { sigint := false, sigterm := false } selfExitCode3Event 0).result ≠
      some 3 := by decide

/-- Claim C6 (amended): when the child exits on its own with a retrievable
exit code and no quit was requested that cycle, the supervising program
exits immediately, but always with exit code 0 regardless of the child
status, which is only logged. -/
theorem self_exit_program_exits_zero (s : LoopState) (e : CycleEvent) (el : Nat)
    (st : ExitStatus)
    (hcond : quit_condition s e = false)
    (hexit : wait_termination e.selfWait 50 true = Except.ok st) :
    (cycle_step s e el).result = CycleResult.exitSelf st ∧
    program_exit_code (cycle_step s e el).result = some 0 := by
  rw [cycle_step_self_exit s e el st hcond hexit]
  exact ⟨rfl, rfl⟩

/-- Witness for C6 at the concrete code-3 self-exit. -/
theorem self_exit_program_exits_zero_w :
    (cycle_step { sigint := false, sigterm := false } selfExitCode3Event 0).result =
      CycleResult.exitSelf { code := some 3 } ∧
    program_exit_code
      (cycle_step { sigint := false, sigterm := false } selfExitCode3Event 0).result =
      some 0 :=
  self_exit_program_exits_zero { sigint := false, sigterm := false } selfExitCode3Event 0
    { code := some 3 } (by decide) (by decide)

/-! ## Claim C7 -/

/-- Claim C7 (corrected): for a dead child whose status carries no exit
code, the per-cycle self-exit poll (which passes
`require_actual_code = true`) resolves to an error, not to "exited", and
the loop keeps running as if the child were alive. -/
theorem poll_no_code_cex :
    wait_termination (WaitOutcome.exited none) 50 true =
      Except.error "Got ExitStatus bot no code." ∧
    (cycle_step { sigint := false, sigterm := false } signalKilledChildEvent 0).result =
      CycleResult.continueRunning false := by decide

/-- Claim C7 (amended): only the waits inside `kill_process`
(`require_actual_code = false`) treat a dead child without a retrievable
exit code as exited, merely logging a warning; the per-cycle self-exit poll
passes `require_actual_code = true`, so for such a status it resolves to an
error and the self-exit is not detected by the loop. -/
theorem wait_termination_no_code (t : Nat) :
    wait_termination (WaitOutcome.exited none) t false = Except.ok { code := none } ∧
    (∃ m, wait_termination (WaitOutcome.exited none) t true = Except.error m) ∧
    (∀ (s : LoopState) (e : CycleEvent) (el : Nat),
      e.selfWait = WaitOutcome.exited none →
      quit_condition s e = false →
      (cycle_step s e el).result = CycleResult.continueRunning false ∧
      (cycle_step s e el).terminate_invoked = false) := by
  refine ⟨rfl, ⟨"Got ExitStatus bot no code.", rfl⟩, ?_⟩
  intro s e el hw hcond
  have hwait : wait_termination e.selfWait 50 true =
      Except.error "Got ExitStatus bot no code." := by rw [hw]; rfl
  rw [cycle_step_keep_running s e el "Got ExitStatus bot no code." hcond hwait]
  exact ⟨rfl, rfl⟩

/-- Witness for C7 at a concrete signal-killed child. -/
theorem wait_termination_no_code_w :
    wait_termination (WaitOutcome.exited none) 50 false = Except.ok { code := none } ∧
    (cycle_step { sigint := false, sigterm := false } signalKilledChildEvent 0).result =
      CycleResult.continueRunning false := by
  have h := wait_termination_no_code 50
  exact ⟨h.1, (h.2.2 { sigint := false, sigterm := false } signalKilledChildEvent 0 rfl
    (by decide)).1⟩

/-! ## Claim C9 -/

/-- The loop never stores to a flag: every branch keeps the handler-updated
state. -/
theorem cycle_step_state (s : LoopState) (e : CycleEvent) (el : Nat) :
    (cycle_step s e el).state = handler_update s e := by
  cases hcond : quit_condition s e with
  | true =>
    cases hkill : (kill_process e.killEnv).1 with
    | error msg => rw [cycle_step_kill_error s e el msg hcond hkill]
    | ok u =>
      cases u
      rw [cycle_step_kill_ok s e el hcond hkill]
  | false =>
    cases hwait : wait_termination e.selfWait 50 true with
    | ok st => rw [cycle_step_self_exit s e el st hcond hwait]
    | error msg => rw [cycle_step_keep_running s e el msg hcond hwait]

/-- Claim C9 (corrected): a cycle that ends in a failed kill attempt takes
the `continue` at src/main.rs line 172 and skips the pacing sleep although
its work took only 50 ms of the 150 ms period, refuting the for-every-cycle
pacing claim. -/
theorem cycle_pacing_cex :
    (cycle_step { sigint := false, sigterm := false } gestureKillFailEvent 50).result =
      CycleResult.continueRunning true ∧
    (50 : Nat) < 150 ∧
    (cycle_step { sigint := false, sigterm := false } gestureKillFailEvent 50).slept_ms = 0 ∧
    (cycle_step { sigint := false, sigterm := false } gestureKillFailEvent 50).slept_ms ≠
      150 - 50 := by decide

/-- Claim C9 (amended): on every cycle that reaches the pacing step (one
that neither exits nor ends in a failed kill attempt), work under 150 ms
sleeps exactly the remainder and work of 150 ms or more sleeps nothing; a
cycle ending in a failed kill attempt skips the sleep entirely, and no
cycle ever sleeps a negative amount. -/
theorem cycle_pacing (s : LoopState) (e : CycleEvent) (el : Nat) :
    ((cycle_step s e el).result = CycleResult.continueRunning false →
      (el < 150 → (cycle_step s e el).slept_ms = 150 - el) ∧
      (150 ≤ el → (cycle_step s e el).slept_ms = 0)) ∧
    ((cycle_step s e el).result ≠ CycleResult.continueRunning false →
      (cycle_step s e el).slept_ms = 0) := by
  cases hcond : quit_condition s e with
  | true =>
    cases hkill : (kill_process e.killEnv).1 with
    | error msg =>
      rw [cycle_step_kill_error s e el msg hcond hkill]
      exact ⟨fun hres => by simp at hres, fun _ => rfl⟩
    | ok u =>
      cases u
      rw [cycle_step_kill_ok s e el hcond hkill]
      exact ⟨fun hres => by simp at hres, fun _ => rfl⟩
  | false =>
    cases hwait : wait_termination e.selfWait 50 true with
    | ok st =>
      rw [cycle_step_self_exit s e el st hcond hwait]
      exact ⟨fun hres => by simp at hres, fun _ => rfl⟩
    | error msg =>
      rw [cycle_step_keep_running s e el msg hcond hwait]
      refine ⟨fun _ => ⟨fun hlt => by simp [hlt], fun hge => by simp [Nat.not_lt.mpr hge]⟩,
        fun hne => absurd rfl hne⟩

/-- Witness for C9 at a quiet 100 ms cycle: the loop sleeps the 50 ms
remainder. -/
theorem cycle_pacing_w :
    (cycle_step { sigint := false, sigterm := false } idleEvent 100).slept_ms = 150 - 100 :=
  ((cycle_pacing { sigint := false, sigterm := false } idleEvent 100).1
    (by decide)).1 (by decide)

/-! ## Claim C10 -/

/-- The handler never clears a set flag. -/
theorem handler_update_sticky (s : LoopState) (e : CycleEvent)
    (h : s.sigint = true ∨ s.sigterm = true) :
    (handler_update s e).sigint = true ∨ (handler_update s e).sigterm = true := by
  cases h with
  | inl h2 => exact Or.inl (by simp [handler_update, h2])
  | inr h2 => exact Or.inr (by simp [handler_update, h2])

/-- With a signal flag set the quit condition holds whatever the gesture
state. -/
theorem quit_condition_of_flag (s : LoopState) (e : CycleEvent)
    (h : s.sigint = true ∨ s.sigterm = true) :
    quit_condition s e = true := by
  unfold quit_condition
  rcases handler_update_sticky s e h with h2 | h2 <;> simp [h2]

/-- One flagged cycle: the kill is attempted and the cycle either exits
through the kill path or continues with a failure status. -/
theorem cycle_step_flagged (s : LoopState) (e : CycleEvent) (el : Nat)
    (h : s.sigint = true ∨ s.sigterm = true) :
    (cycle_step s e el).state = handler_update s e ∧
    (cycle_step s e el).terminate_invoked = true ∧
    ((cycle_step s e el).result = CycleResult.exitKilled ∨
      (cycle_step s e el).result = CycleResult.continueRunning true) := by
  have hcond := quit_condition_of_flag s e h
  cases hkill : (kill_process e.killEnv).1 with
  | error msg =>
    rw [cycle_step_kill_error s e el msg hcond hkill]
    exact ⟨rfl, rfl, Or.inr rfl⟩
  | ok u =>
    cases u
    rw [cycle_step_kill_ok s e el hcond hkill]
    exact ⟨rfl, rfl, Or.inl rfl⟩

/-- Claim C10 (confirmed): the loop never stores to the SIGINT/SIGTERM
flags (its post-cycle state is exactly the handler-updated one), and from
any state with a flag observed set, every cycle of every remaining run
keeps a flag set, invokes the kill, and either exits through the kill path
or continues after a failed kill — independently of the gesture state. -/
theorem signal_flags_sticky :
    (∀ (s : LoopState) (e : CycleEvent) (el : Nat),
      (cycle_step s e el).state = handler_update s e) ∧
    (∀ (s : LoopState) (evs : List (CycleEvent × Nat)),
      (s.sigint = true ∨ s.sigterm = true) →
      ∀ o ∈ run s evs,
        (o.state.sigint = true ∨ o.state.sigterm = true) ∧
        o.terminate_invoked = true ∧
        (o.result = CycleResult.exitKilled ∨
          o.result = CycleResult.continueRunning true)) := by
  refine ⟨cycle_step_state, ?_⟩
  intro s evs
  induction evs generalizing s with
  | nil =>
    intro h o ho
    simp [run] at ho
  | cons p rest ih =>
    obtain ⟨e, el⟩ := p
    intro h o ho
    have hstep := cycle_step_flagged s e el h
    have hostate : (cycle_step s e el).state.sigint = true ∨
        (cycle_step s e el).state.sigterm = true := by
      rw [hstep.1]
      exact handler_update_sticky s e h
    simp only [run] at ho
    rcases hstep.2.2 with hres | hres
    · rw [hres] at ho
      simp only [List.mem_singleton] at ho
      subst ho
      exact ⟨hostate, hstep.2.1, Or.inl hres⟩
    · rw [hres] at ho
      simp only [List.mem_cons] at ho
      rcases ho with ho | ho
      · subst ho
        exact ⟨hostate, hstep.2.1, Or.inr hres⟩
      · exact ih (cycle_step s e el).state hostate o ho

/-- Witness for C10: with SIGINT observed and the gesture absent, the
single-cycle run still attempts the kill. -/
theorem signal_flags_sticky_w :
    (cycle_step { sigint := true, sigterm := false } stickyEvent 0).terminate_invoked
      = true := by
  have hmem : cycle_step { sigint := true, sigterm := false } stickyEvent 0 ∈
      run { sigint := true, sigterm := false } [(stickyEvent, 0)] := by decide
  exact ((signal_flags_sticky.2 { sigint := true, sigterm := false } [(stickyEvent, 0)]
    (Or.inl rfl)) (cycle_step { sigint := true, sigterm := false } stickyEvent 0) hmem).2.1
